import Mathlib

/-
Verification of `plugins/modules/o4n_render_config.py`.

The Python module parses a device configuration with a TTP template,
filters the extracted records against ignore-prefixes, renders the
surviving records through a jinja2 template, and idempotently writes the
result to an optional destination file.

The shallow embedding below models:
  * records as ordered association lists from field names to string values;
  * the `keys_ignore` parameter, which in Python may be a string or a list
    of strings (iterating a Python string yields its one-character
    substrings);
  * the jinja2 call `Template(context_template).render(**entry)` for
    templates made of literal text and simple `{{ name }}` placeholders,
    with jinja2's default `Undefined` (a missing name renders as the empty
    string);
  * `render_configuration` (lines 275-298), including its early return of
    the bare template string when `parsed_data` is falsy;
  * the relevant part of `main` (lines 328-393): the raw-parse emptiness
    check, the `parsed_raw[0][0]` normalization, the three-way unpacking
    of `render_configuration`'s result (a Python tuple-unpack of a string
    succeeds exactly when the string has three characters), the
    conditional destination write (lines 369-387), and `fail_json` /
    `exit_json`.

The destination filesystem is modelled as `Option String`: the content of
the destination file, or `none` when the file does not exist.
-/

/-- A parsed TTP record: an ordered mapping from placeholder names to the
captured string values (a Python dict `entry`; `str(value)` is the
identity on the string values modelled here). -/
abbrev Record := List (String × String)

/-- The `keys_ignore` module parameter has Ansible type `raw`: the module
documentation allows a single string or a list of strings. -/
inductive KeysIgnore
  | str (s : String)
  | list (l : List String)
deriving DecidableEq

/-- Python truthiness of `keys_ignore` (`if keys_ignore:`): an empty
string and an empty list are falsy. -/
def KeysIgnore.truthy : KeysIgnore → Bool
  | .str s => !(s == "")
  | .list l => !l.isEmpty

/-- Python iteration over `keys_ignore` (`for key_ignore in keys_ignore`):
iterating a string yields its characters as one-character strings;
iterating a list yields its elements. -/
def KeysIgnore.iter : KeysIgnore → List String
  | .str s => s.data.map (fun c => String.singleton c)
  | .list l => l

/-- Python's `v.startswith(p)`: `p` is a prefix of `v`, by characters. -/
def str_startswith (v p : String) : Bool :=
  p.data.isPrefixOf v.data

/-- The per-entry ignore test of `render_configuration` (lines 286-288):
`if keys_ignore:` followed by
`any(str(value).startswith(key_ignore) for value in entry.values() for key_ignore in keys_ignore)`. -/
def entryIgnored (keys_ignore : KeysIgnore) (entry : Record) : Bool :=
  keys_ignore.truthy &&
    (entry.map Prod.snd).any (fun value =>
      keys_ignore.iter.any (fun key_ignore => str_startswith value key_ignore))

/-- A segment of a jinja2 template: literal text or a `{{ name }}`
placeholder. -/
inductive Seg
  | lit (s : String)
  | var (name : String)
deriving DecidableEq

/-- Strip leading and trailing whitespace from a character list (jinja2
ignores whitespace around the expression inside `{{ ... }}`). -/
def trimChars (l : List Char) : List Char :=
  ((l.dropWhile Char.isWhitespace).reverse.dropWhile Char.isWhitespace).reverse

/-- Split template text into literal and placeholder segments, models the
jinja2 lexer for templates made of literal text and simple `{{ name }}`
placeholders (the only constructs the module's templates use).  The first
argument is `true` inside an open `{{ ... }}`, the second accumulates the
current segment's characters in reverse. -/
def parseSegsAux : Bool → List Char → List Char → List Seg
  | false, acc, '{' :: '{' :: rest => Seg.lit (String.mk acc.reverse) :: parseSegsAux true [] rest
  | false, acc, c :: rest => parseSegsAux false (c :: acc) rest
  | false, acc, [] => [Seg.lit (String.mk acc.reverse)]
  | true, acc, '}' :: '}' :: rest =>
      Seg.var (String.mk (trimChars acc.reverse)) :: parseSegsAux false [] rest
  | true, acc, c :: rest => parseSegsAux true (c :: acc) rest
  | true, acc, [] => [Seg.lit (String.mk acc.reverse)]

/-- Value substituted for the placeholder `name` when rendering for
`entry`: the entry's value for `name`, or — jinja2's default `Undefined`,
which prints as the empty string — `""` when `name` is absent. -/
def renderVarValue (entry : Record) (name : String) : String :=
  match entry.find? (fun kv => kv.1 == name) with
  | some kv => kv.2
  | none => ""

/-- The text a single segment contributes when rendered for `entry`. -/
def Seg.value (entry : Record) : Seg → String
  | .lit s => s
  | .var name => renderVarValue entry name

/-- Concatenate the rendering of a segment list for `entry`. -/
def renderSegs (entry : Record) : List Seg → String
  | [] => ""
  | s :: rest => s.value entry ++ renderSegs entry rest

/-- Models `Template(context_template).render(**entry)` (line 294) for
templates made of literal text and simple `{{ name }}` placeholders. -/
def renderTemplate (context_template : String) (entry : Record) : String :=
  renderSegs entry (parseSegsAux false [] context_template.data)

/-- Python's `sep.join(parts)`. -/
def strJoin (sep : String) : List String → String
  | [] => ""
  | [s] => s
  | s :: rest => s ++ sep ++ strJoin sep rest

/-- The value returned by `render_configuration`: the bare template
string (line 283, when `parsed_data` is falsy) or the 3-tuple
`(rendered, ignored_instances, render_data)` (line 298). -/
inductive RenderOut
  | bare (s : String)
  | triple (rendered : String) (ignored_instances : List Record) (render_data : List Record)
deriving DecidableEq

/-- The `for entry in parsed_data:` loop of `render_configuration`
(lines 285-295), producing `(rendered_parts, ignored_instances,
render_data)` in document order. -/
def renderLoop (context_template : String) (keys_ignore : KeysIgnore) :
    List Record → List String × List Record × List Record
  | [] => ([], [], [])
  | entry :: rest =>
    let r := renderLoop context_template keys_ignore rest
    if entryIgnored keys_ignore entry then (r.1, entry :: r.2.1, r.2.2)
    else (renderTemplate context_template entry :: r.1, r.2.1, entry :: r.2.2)

/-- `render_configuration(parsed_data, context_template, keys_ignore)`
(lines 275-298): returns the bare template when `parsed_data` is falsy,
otherwise the tuple `("\n".join(rendered_parts), ignored_instances,
render_data)`. -/
def render_configuration (parsed_data : List Record) (context_template : String)
    (keys_ignore : KeysIgnore) : RenderOut :=
  if parsed_data.isEmpty then RenderOut.bare context_template
  else
    let r := renderLoop context_template keys_ignore parsed_data
    RenderOut.triple (strJoin "\n" r.1) r.2.1 r.2.2

/-- The claim-relevant part of the module result assembled by `main`. -/
structure ModuleResult where
  changed : Bool
  rendered_config : String
deriving DecidableEq

/-- Outcome of a run of `main`: `exit_json` with the result, or
`fail_json` with an error message.  Either way the final content of the
destination file (`none` = absent) is carried alongside. -/
inductive MainOutcome
  | exit (result : ModuleResult) (dest_fs : Option String)
  | fail (msg : String) (dest_fs : Option String)
deriving DecidableEq

/-- Destination-file content after the run. -/
def MainOutcome.fsAfter : MainOutcome → Option String
  | .exit _ fs => fs
  | .fail _ fs => fs

/-- The `changed` value the run reports: the result's flag on
`exit_json`; `fail_json(**result)` reports the initial `changed = False`
(the write block is the last step before `exit_json`, so no failure can
occur after `changed` was set). -/
def MainOutcome.changedOf : MainOutcome → Bool
  | .exit r _ => r.changed
  | .fail _ _ => false

/-- CPython's error message for unpacking an iterable of length `n` into
three targets, `n ≠ 3`. -/
def unpackMsg (n : Nat) : String :=
  if n > 3 then "too many values to unpack (expected 3)"
  else "not enough values to unpack (expected 3, got " ++ toString n ++ ")"

/-- The conditional destination write of `main` (lines 369-387):
skipped entirely in check mode or without a destination path; otherwise
compares the existing content and writes only on difference.  Returns the
filesystem after the block and the `changed` flag (whose initial value,
`False`, is kept whenever the block does not set it). -/
def writeStep (check_mode : Bool) (dest_path : Option String) (fs : Option String)
    (rendered : String) : Option String × Bool :=
  if !check_mode && dest_path.isSome then
    match fs with
    | some current => if current == rendered then (fs, false) else (some rendered, true)
    | none => (some rendered, true)
  else (fs, false)

/-- The claim-relevant behaviour of `main` (lines 328-393).
`config_load` and `template_load` model the outcomes of lines 330-343
(the loaded text, or the message of the exception `load_content` raised);
`parse_result` models the outcome of `parse_configuration` (line 350):
the raw TTP result — a list of per-template result groups, each a list
whose first element is the record list — or the raised error's message.
In this typed model `parsed_raw[0]` is always a list, so the
normalization of line 356 takes `parsed_raw[0][0]`, raising `IndexError`
when `parsed_raw[0]` is empty.  The three-way unpacking of
`render_configuration`'s result (line 360) succeeds on the 3-tuple, and
on a bare string exactly when it has three characters (Python unpacks a
string by iterating its characters); otherwise the `ValueError` is
caught and reported by `fail_json` (line 391). -/
def main_model (config_load template_load : Except String String)
    (parse_result : Except String (List (List (List Record))))
    (keys_ignore : KeysIgnore) (dest_path : Option String) (check_mode : Bool)
    (fs : Option String) : MainOutcome :=
  match config_load with
  | .error e => .fail e fs
  | .ok _ =>
    match template_load with
    | .error e => .fail e fs
    | .ok context_template =>
      match parse_result with
      | .error e => .fail e fs
      | .ok parsed_raw =>
        match parsed_raw with
        | [] => .fail "No se encontraron datos válidos en el parseo" fs
        | groups :: _ =>
          match groups with
          | [] => .fail "list index out of range" fs
          | parsed_data :: _ =>
            match render_configuration parsed_data context_template keys_ignore with
            | .bare s =>
              match s.data with
              | [c1, _, _] =>
                MainOutcome.exit
                  ⟨(writeStep check_mode dest_path fs (String.singleton c1)).2,
                    String.singleton c1⟩
                  (writeStep check_mode dest_path fs (String.singleton c1)).1
              | l => .fail (unpackMsg l.length) fs
            | .triple rendered _ _ =>
              MainOutcome.exit ⟨(writeStep check_mode dest_path fs rendered).2, rendered⟩
                (writeStep check_mode dest_path fs rendered).1

/-! ### Helper lemmas shared by the claim theorems -/

/-- The render loop partitions `parsed_data` by `entryIgnored` preserving
order, rendering exactly the kept entries. -/
theorem renderLoop_eq (context_template : String) (keys_ignore : KeysIgnore)
    (pd : List Record) :
    renderLoop context_template keys_ignore pd =
      ((pd.filter (fun e => ! entryIgnored keys_ignore e)).map
          (renderTemplate context_template),
        pd.filter (fun e => entryIgnored keys_ignore e),
        pd.filter (fun e => ! entryIgnored keys_ignore e)) := by
  induction pd with
  | nil => rfl
  | cons e rest ih =>
    cases h : entryIgnored keys_ignore e <;>
      simp [renderLoop, ih, List.filter_cons, h]

/-- On a non-empty `parsed_data`, `render_configuration` returns the
3-tuple whose components are the newline-join of the kept renderings, the
ignored entries, and the kept entries. -/
theorem render_configuration_triple (pd : List Record) (tpl : String)
    (ki : KeysIgnore) (h : pd ≠ []) :
    render_configuration pd tpl ki =
      RenderOut.triple
        (strJoin "\n" ((pd.filter (fun e => ! entryIgnored ki e)).map
          (renderTemplate tpl)))
        (pd.filter (fun e => entryIgnored ki e))
        (pd.filter (fun e => ! entryIgnored ki e)) := by
  have hne : pd.isEmpty = false := by
    cases pd with
    | nil => exact absurd rfl h
    | cons a l => rfl
  simp [render_configuration, hne, renderLoop_eq]

/-- If every entry of a non-empty `parsed_data` is ignored, the rendered
text is the join of no parts, i.e. the empty string. -/
theorem render_configuration_all_ignored (pd : List Record) (tpl : String)
    (ki : KeysIgnore) (hpd : pd ≠ []) (hall : ∀ e ∈ pd, entryIgnored ki e = true) :
    render_configuration pd tpl ki = RenderOut.triple "" pd [] := by
  have h1 : pd.filter (fun e => ! entryIgnored ki e) = [] := by
    rw [List.filter_eq_nil_iff]
    intro a ha
    simp [hall a ha]
  have h2 : pd.filter (fun e => entryIgnored ki e) = pd :=
    List.filter_eq_self.mpr hall
  rw [render_configuration_triple pd tpl ki hpd, h1, h2]
  rfl

/-- The write block is a no-op reporting `changed = False` in check mode. -/
theorem writeStep_check (dp : Option String) (fs : Option String) (r : String) :
    writeStep true dp fs r = (fs, false) := by
  simp [writeStep]

/-- Outside check mode, with a destination path, the write block always
leaves the destination holding exactly the rendered text. -/
theorem writeStep_dest_fst (dp : String) (fs : Option String) (r : String) :
    (writeStep false (some dp) fs r).1 = some r := by
  rcases fs with _ | c
  · simp [writeStep]
  · by_cases h : c = r
    · simp [writeStep, h]
    · simp [writeStep, h]

/-- Running the write block on its own output performs no further write
and reports `changed = False`. -/
theorem writeStep_twice (dp : String) (fs : Option String) (r : String) :
    writeStep false (some dp) (writeStep false (some dp) fs r).1 r =
      ((writeStep false (some dp) fs r).1, false) := by
  rcases fs with _ | c
  · simp [writeStep]
  · by_cases h : c = r
    · simp [writeStep, h]
    · simp [writeStep, h]

/-- Filtering a list by a predicate and by its negation splits its
length: each element lands on exactly one side. -/
theorem length_filter_not_add_length_filter {α : Type} (p : α → Bool) (l : List α) :
    (l.filter (fun e => ! p e)).length + (l.filter p).length = l.length := by
  induction l with
  | nil => rfl
  | cons e rest ih =>
    cases he : p e <;> simp [List.filter_cons, he] <;> omega

/-! ### Claim theorems -/

/-- C3: for every non-empty list of extracted records and every list of
ignore-prefix strings, `render_configuration` partitions the records into
kept (`render_data`) and ignored (`ignored_instances`), each record
landing in exactly one side; a record is ignored iff some field value
starts with some ignore-prefix; an empty ignore-prefix list keeps every
record. -/
theorem c3_filter_partition (pd : List Record) (tpl : String) (l : List String)
    (h : pd ≠ []) :
    (∃ r, render_configuration pd tpl (KeysIgnore.list l) =
        RenderOut.triple r
          (pd.filter (fun e => entryIgnored (KeysIgnore.list l) e))
          (pd.filter (fun e => ! entryIgnored (KeysIgnore.list l) e))) ∧
    (∀ e : Record, entryIgnored (KeysIgnore.list l) e = true ↔
        ∃ v, v ∈ e.map Prod.snd ∧ ∃ k, k ∈ l ∧ str_startswith v k = true) ∧
    ((pd.filter (fun e => ! entryIgnored (KeysIgnore.list l) e)).length +
        (pd.filter (fun e => entryIgnored (KeysIgnore.list l) e)).length = pd.length) ∧
    (l = [] → pd.filter (fun e => ! entryIgnored (KeysIgnore.list l) e) = pd) := by
  refine ⟨⟨_, render_configuration_triple pd tpl _ h⟩, ?_, ?_, ?_⟩
  · intro e
    cases l with
    | nil => simp [entryIgnored, KeysIgnore.truthy, KeysIgnore.iter]
    | cons k ks =>
      simp [entryIgnored, KeysIgnore.truthy, KeysIgnore.iter, List.any_eq_true]
  · exact length_filter_not_add_length_filter (fun e => entryIgnored (KeysIgnore.list l) e) pd
  · intro hl
    subst hl
    simp [entryIgnored, KeysIgnore.truthy]

/-- Witness for C3 at a concrete input: two records, one matching the
ignore-prefix "Gi". -/
theorem c3_filter_partition_witness :
    ([[("a", "Gi0")], [("a", "X7")]] : List Record) ≠ [] ∧
    ((∃ r, render_configuration [[("a", "Gi0")], [("a", "X7")]] "{{ a }}" (KeysIgnore.list ["Gi"]) =
        RenderOut.triple r
          (([[("a", "Gi0")], [("a", "X7")]] : List Record).filter
            (fun e => entryIgnored (KeysIgnore.list ["Gi"]) e))
          (([[("a", "Gi0")], [("a", "X7")]] : List Record).filter
            (fun e => ! entryIgnored (KeysIgnore.list ["Gi"]) e))) ∧
    (∀ e : Record, entryIgnored (KeysIgnore.list ["Gi"]) e = true ↔
        ∃ v, v ∈ e.map Prod.snd ∧ ∃ k, k ∈ ["Gi"] ∧ str_startswith v k = true) ∧
    ((([[("a", "Gi0")], [("a", "X7")]] : List Record).filter
        (fun e => ! entryIgnored (KeysIgnore.list ["Gi"]) e)).length +
      (([[("a", "Gi0")], [("a", "X7")]] : List Record).filter
        (fun e => entryIgnored (KeysIgnore.list ["Gi"]) e)).length =
      ([[("a", "Gi0")], [("a", "X7")]] : List Record).length) ∧
    ((["Gi"] : List String) = [] →
      ([[("a", "Gi0")], [("a", "X7")]] : List Record).filter
        (fun e => ! entryIgnored (KeysIgnore.list ["Gi"]) e) =
        [[("a", "Gi0")], [("a", "X7")]])) :=
  ⟨by decide, c3_filter_partition [[("a", "Gi0")], [("a", "X7")]] "{{ a }}" ["Gi"] (by decide)⟩

/-- C5: on a non-dry run with a destination path, once rendering has
produced a 3-tuple: an absent destination is created with the rendered
text and `changed = true`; a destination whose content equals the
rendered text is untouched with `changed = false`; any other content is
overwritten with `changed = true`. -/
theorem c5_write_semantics (pd : List Record) (tpl cfg dp : String) (ki : KeysIgnore)
    (fs : Option String) (r : String) (i k : List Record)
    (h : render_configuration pd tpl ki = RenderOut.triple r i k) :
    (fs = none →
      main_model (.ok cfg) (.ok tpl) (.ok [[pd]]) ki (some dp) false fs =
        MainOutcome.exit ⟨true, r⟩ (some r)) ∧
    (fs = some r →
      main_model (.ok cfg) (.ok tpl) (.ok [[pd]]) ki (some dp) false fs =
        MainOutcome.exit ⟨false, r⟩ (some r)) ∧
    (∀ c, fs = some c → c ≠ r →
      main_model (.ok cfg) (.ok tpl) (.ok [[pd]]) ki (some dp) false fs =
        MainOutcome.exit ⟨true, r⟩ (some r)) := by
  refine ⟨?_, ?_, ?_⟩
  · rintro rfl
    simp [main_model, h, writeStep]
  · rintro rfl
    simp [main_model, h, writeStep]
  · rintro c rfl hne
    simp [main_model, h, writeStep, hne]

/-- Witness for C5 at a concrete input: absent destination, one record. -/
theorem c5_write_semantics_witness :
    main_model (.ok "c") (.ok "{{ a }}") (.ok [[[[("a", "1")]]]]) (KeysIgnore.list [])
        (some "d") false none = MainOutcome.exit ⟨true, "1"⟩ (some "1") :=
  (c5_write_semantics [[("a", "1")]] "{{ a }}" "c" "d" (KeysIgnore.list [])
    none "1" [] [[("a", "1")]] (by decide)).1 rfl

/-- C6: running the pipeline twice with unchanged inputs and the same
destination path, outside check mode, reports `changed = false` on the
second run and leaves the destination content unchanged by the second
run — whatever the inputs and however the first run ended. -/
theorem c6_idempotent (cl tl : Except String String)
    (pr : Except String (List (List (List Record)))) (ki : KeysIgnore) (dp : String)
    (fs : Option String) :
    (main_model cl tl pr ki (some dp) false
        (main_model cl tl pr ki (some dp) false fs).fsAfter).changedOf = false ∧
    (main_model cl tl pr ki (some dp) false
        (main_model cl tl pr ki (some dp) false fs).fsAfter).fsAfter =
      (main_model cl tl pr ki (some dp) false fs).fsAfter := by
  rcases cl with e | cfg
  · simp [main_model, MainOutcome.fsAfter, MainOutcome.changedOf]
  rcases tl with e | tpl
  · simp [main_model, MainOutcome.fsAfter, MainOutcome.changedOf]
  rcases pr with e | praw
  · simp [main_model, MainOutcome.fsAfter, MainOutcome.changedOf]
  rcases praw with _ | ⟨groups, prest⟩
  · simp [main_model, MainOutcome.fsAfter, MainOutcome.changedOf]
  rcases groups with _ | ⟨pd, grest⟩
  · simp [main_model, MainOutcome.fsAfter, MainOutcome.changedOf]
  rcases hrc : render_configuration pd tpl ki with s | ⟨r, i, k⟩
  · rcases hs : s.data with _ | ⟨c1, _ | ⟨c2, _ | ⟨c3, _ | ⟨c4, rest⟩⟩⟩⟩ <;>
      simp [main_model, hrc, hs, MainOutcome.fsAfter, MainOutcome.changedOf,
        writeStep_twice]
  · simp [main_model, hrc, MainOutcome.fsAfter, MainOutcome.changedOf, writeStep_twice]

/-- C4 (amended): check mode never touches the destination file, and the
reported `changed` is always `false` — the write block, including the
`changed` computation, is skipped entirely, so the report does not equal
the non-dry-run outcome. -/
theorem c4_amended (cl tl : Except String String)
    (pr : Except String (List (List (List Record)))) (ki : KeysIgnore)
    (dp : Option String) (fs : Option String) :
    (main_model cl tl pr ki dp true fs).fsAfter = fs ∧
    (main_model cl tl pr ki dp true fs).changedOf = false := by
  rcases cl with e | cfg
  · simp [main_model, MainOutcome.fsAfter, MainOutcome.changedOf]
  rcases tl with e | tpl
  · simp [main_model, MainOutcome.fsAfter, MainOutcome.changedOf]
  rcases pr with e | praw
  · simp [main_model, MainOutcome.fsAfter, MainOutcome.changedOf]
  rcases praw with _ | ⟨groups, prest⟩
  · simp [main_model, MainOutcome.fsAfter, MainOutcome.changedOf]
  rcases groups with _ | ⟨pd, grest⟩
  · simp [main_model, MainOutcome.fsAfter, MainOutcome.changedOf]
  rcases hrc : render_configuration pd tpl ki with s | ⟨r, i, k⟩
  · rcases hs : s.data with _ | ⟨c1, _ | ⟨c2, _ | ⟨c3, _ | ⟨c4, rest⟩⟩⟩⟩ <;>
      simp [main_model, hrc, hs, MainOutcome.fsAfter, MainOutcome.changedOf,
        writeStep_check]
  · simp [main_model, hrc, MainOutcome.fsAfter, MainOutcome.changedOf, writeStep_check]

/-- Counterexample to C4 as stated: with an absent destination, a
check-mode run reports `changed = false` while the non-dry-run invocation
with the same inputs reports `changed = true`, so the dry-run report does
not equal the non-dry-run outcome. -/
theorem c4_counterexample :
    main_model (.ok "c") (.ok "x {{ a }}") (.ok [[[[("a", "1")]]]]) (KeysIgnore.list [])
        (some "d") true none = MainOutcome.exit ⟨false, "x 1"⟩ none ∧
    main_model (.ok "c") (.ok "x {{ a }}") (.ok [[[[("a", "1")]]]]) (KeysIgnore.list [])
        (some "d") false none = MainOutcome.exit ⟨true, "x 1"⟩ (some "x 1") ∧
    (main_model (.ok "c") (.ok "x {{ a }}") (.ok [[[[("a", "1")]]]]) (KeysIgnore.list [])
        (some "d") true none).changedOf ≠
      (main_model (.ok "c") (.ok "x {{ a }}") (.ok [[[[("a", "1")]]]]) (KeysIgnore.list [])
        (some "d") false none).changedOf := by
  decide

/-- C8: whenever the modelled run fails — at loading, parsing,
normalization, or result unpacking — the destination file is exactly as
it was before the run: no write occurs after a failure. -/
theorem c8_no_write_on_failure (cl tl : Except String String)
    (pr : Except String (List (List (List Record)))) (ki : KeysIgnore)
    (dp : Option String) (cm : Bool) (fs : Option String) (m : String)
    (fs' : Option String)
    (h : main_model cl tl pr ki dp cm fs = MainOutcome.fail m fs') : fs' = fs := by
  rcases cl with e | cfg
  · exact ((MainOutcome.fail.inj h.symm).2)
  rcases tl with e | tpl
  · exact ((MainOutcome.fail.inj h.symm).2)
  rcases pr with e | praw
  · exact ((MainOutcome.fail.inj h.symm).2)
  rcases praw with _ | ⟨groups, prest⟩
  · exact ((MainOutcome.fail.inj h.symm).2)
  rcases groups with _ | ⟨pd, grest⟩
  · exact ((MainOutcome.fail.inj h.symm).2)
  rcases hrc : render_configuration pd tpl ki with s | ⟨r, i, k⟩
  · rcases hs : s.data with _ | ⟨c1, _ | ⟨c2, _ | ⟨c3, _ | ⟨c4, rest⟩⟩⟩⟩ <;>
      simp [main_model, hrc, hs] at h <;>
      exact h.2.symm
  · simp [main_model, hrc] at h

/-- Witness for C8: a failed template load leaves the pre-existing
destination content untouched. -/
theorem c8_no_write_on_failure_witness :
    main_model (.ok "c") (.error "File not found: /t") (.ok [[[[("a", "1")]]]])
        (KeysIgnore.list []) (some "d") false (some "old") =
      MainOutcome.fail "File not found: /t" (some "old") ∧
    (some "old" : Option String) = some "old" :=
  ⟨by decide,
   c8_no_write_on_failure (.ok "c") (.error "File not found: /t")
     (.ok [[[[("a", "1")]]]]) (KeysIgnore.list []) (some "d") false (some "old")
     "File not found: /t" (some "old") (by decide)⟩

/-- C7: an empty raw extraction result makes `main` fail with the
no-match message (line 353) without touching the destination, and this is
distinct from a run whose record set becomes empty only through
filtering, which exits successfully with an empty rendered text. -/
theorem c7_nomatch (cfg tpl : String) (ki : KeysIgnore) (dp : Option String)
    (cm : Bool) (fs : Option String) :
    main_model (.ok cfg) (.ok tpl) (.ok []) ki dp cm fs =
      MainOutcome.fail "No se encontraron datos válidos en el parseo" fs ∧
    (∀ pd : List Record, pd ≠ [] → (∀ e ∈ pd, entryIgnored ki e = true) →
      ∃ ch fs', main_model (.ok cfg) (.ok tpl) (.ok [[pd]]) ki dp cm fs =
        MainOutcome.exit ⟨ch, ""⟩ fs') := by
  constructor
  · rfl
  · intro pd hpd hall
    have hr := render_configuration_all_ignored pd tpl ki hpd hall
    exact ⟨(writeStep cm dp fs "").2, (writeStep cm dp fs "").1, by simp [main_model, hr]⟩

/-- Witness for C7: the no-match failure on an empty raw result, and a
successful post-filter-empty run on a record matching ignore-prefix "G". -/
theorem c7_nomatch_witness :
    main_model (.ok "c") (.ok "t") (.ok []) (KeysIgnore.list ["G"]) none false none =
      MainOutcome.fail "No se encontraron datos válidos en el parseo" none ∧
    ∃ ch fs', main_model (.ok "c") (.ok "t") (.ok [[[[("a", "G1")]]]])
        (KeysIgnore.list ["G"]) none false none = MainOutcome.exit ⟨ch, ""⟩ fs' :=
  ⟨(c7_nomatch "c" "t" (KeysIgnore.list ["G"]) none false none).1,
   (c7_nomatch "c" "t" (KeysIgnore.list ["G"]) none false none).2
     [[("a", "G1")]] (by decide) (by decide)⟩

/-- Counterexample to C1 as stated: one extracted record, ignored by
prefix "Gi" — the kept set is empty, yet the rendered text is the empty
string, not the output template text. -/
theorem c1_counterexample :
    render_configuration [[("ifname", "Gi0/0")]] "interface {{ ifname }}"
        (KeysIgnore.list ["Gi"]) =
      RenderOut.triple "" [[("ifname", "Gi0/0")]] [] ∧
    ("" : String) ≠ "interface {{ ifname }}" := by
  decide

/-- C1 (amended): when the extracted record list is non-empty but every
record is ignored, the rendered text is the empty string (the
newline-join of no parts) and the pipeline still completes, returning
that empty text (here with no destination path, so `changed = false`). -/
theorem c1_amended (pd : List Record) (tpl : String) (ki : KeysIgnore)
    (hpd : pd ≠ []) (hall : ∀ e ∈ pd, entryIgnored ki e = true) :
    render_configuration pd tpl ki = RenderOut.triple "" pd [] ∧
    (∀ (cfg : String) (cm : Bool) (fs : Option String),
      main_model (.ok cfg) (.ok tpl) (.ok [[pd]]) ki none cm fs =
        MainOutcome.exit ⟨false, ""⟩ fs) := by
  have hr := render_configuration_all_ignored pd tpl ki hpd hall
  refine ⟨hr, ?_⟩
  intro cfg cm fs
  simp [main_model, hr, writeStep]

/-- Witness for C1 (amended) at a concrete all-ignored input. -/
theorem c1_amended_witness :
    render_configuration [[("ifname", "Gi0/0")]] "interface {{ ifname }}"
        (KeysIgnore.list ["Gi"]) =
      RenderOut.triple "" [[("ifname", "Gi0/0")]] [] ∧
    main_model (.ok "c") (.ok "interface {{ ifname }}")
        (.ok [[[[("ifname", "Gi0/0")]]]]) (KeysIgnore.list ["Gi"]) none false none =
      MainOutcome.exit ⟨false, ""⟩ none :=
  ⟨(c1_amended [[("ifname", "Gi0/0")]] "interface {{ ifname }}"
      (KeysIgnore.list ["Gi"]) (by decide) (by decide)).1,
   (c1_amended [[("ifname", "Gi0/0")]] "interface {{ ifname }}"
      (KeysIgnore.list ["Gi"]) (by decide) (by decide)).2 "c" false none⟩

/-- Counterexample to C2 as stated: the output template references
`{{ desc }}`, the record carries no `desc`, a destination path is
supplied and the file is absent — yet the run does not fail: jinja2's
default undefined substitutes the empty string, and the destination is
written with the defaulted text. -/
theorem c2_counterexample :
    main_model (.ok "c") (.ok "i {{ desc }}") (.ok [[[[("ifname", "G0")]]]])
        (KeysIgnore.list []) (some "d") false none =
      MainOutcome.exit ⟨true, "i "⟩ (some "i ") := by
  decide

/-- C2 (amended): a placeholder absent from the record renders as the
empty string (jinja2 default `Undefined`) rather than failing, and on a
non-dry run with a destination path the rendering always succeeds as a
3-tuple whose rendered text ends up in the destination file. -/
theorem c2_amended :
    (∀ (entry : Record) (name : String),
      entry.find? (fun kv => kv.1 == name) = none → renderVarValue entry name = "") ∧
    (∀ (pd : List Record) (tpl cfg dp : String) (ki : KeysIgnore) (fs : Option String),
      pd ≠ [] →
      ∃ r i k, render_configuration pd tpl ki = RenderOut.triple r i k ∧
        (main_model (.ok cfg) (.ok tpl) (.ok [[pd]]) ki (some dp) false fs).fsAfter =
          some r) := by
  constructor
  · intro entry name h
    simp [renderVarValue, h]
  · intro pd tpl cfg dp ki fs hpd
    have hr := render_configuration_triple pd tpl ki hpd
    exact ⟨_, _, _, hr, by simp [main_model, hr, MainOutcome.fsAfter, writeStep_dest_fst]⟩

/-- Witness for C2 (amended) at the Scenario-D-like input. -/
theorem c2_amended_witness :
    renderVarValue [("ifname", "G0")] "desc" = "" ∧
    ∃ r i k, render_configuration [[("ifname", "G0")]] "i {{ desc }}"
        (KeysIgnore.list []) = RenderOut.triple r i k ∧
      (main_model (.ok "c") (.ok "i {{ desc }}") (.ok [[[[("ifname", "G0")]]]])
          (KeysIgnore.list []) (some "d") false none).fsAfter = some r :=
  ⟨c2_amended.1 [("ifname", "G0")] "desc" (by decide),
   c2_amended.2 [[("ifname", "G0")]] "i {{ desc }}" "c" "d" (KeysIgnore.list [])
     none (by decide)⟩

/-- Counterexample to C9 as stated: with an empty `parsed_data` and the
three-character template "abc", the three-way unpacking of the bare
string succeeds (a Python string of length 3 unpacks into its
characters), so the run does not abort: it exits with rendered text "a". -/
theorem c9_counterexample :
    main_model (.ok "c") (.ok "abc") (.ok [[[]]]) (KeysIgnore.list [])
        none false none = MainOutcome.exit ⟨false, "a"⟩ none := by
  decide

/-- C9 (amended): an empty `parsed_data` makes `render_configuration`
return the bare template string instead of the 3-tuple, and the caller's
three-way unpacking fails — aborting the run with the unpack error, fs
untouched — whenever the template text does not have exactly three
characters (with exactly three, the string unpacks into its characters
and the run proceeds). -/
theorem c9_amended (tpl : String) (ki : KeysIgnore) :
    render_configuration [] tpl ki = RenderOut.bare tpl ∧
    (∀ (cfg : String) (dp : Option String) (cm : Bool) (fs : Option String),
      tpl.data.length ≠ 3 →
      main_model (.ok cfg) (.ok tpl) (.ok [[[]]]) ki dp cm fs =
        MainOutcome.fail (unpackMsg tpl.data.length) fs) := by
  constructor
  · rfl
  · intro cfg dp cm fs h3
    rcases hs : tpl.data with _ | ⟨a, _ | ⟨b, _ | ⟨c, _ | ⟨d, rest⟩⟩⟩⟩
    · simp [main_model, render_configuration, hs]
    · simp [main_model, render_configuration, hs]
    · simp [main_model, render_configuration, hs]
    · exact absurd (by rw [hs]; rfl) h3
    · simp [main_model, render_configuration, hs]

/-- Witness for C9 (amended) at the two-character template "ab". -/
theorem c9_amended_witness :
    render_configuration [] "ab" (KeysIgnore.list []) = RenderOut.bare "ab" ∧
    ("ab" : String).data.length ≠ 3 ∧
    main_model (.ok "c") (.ok "ab") (.ok [[[]]]) (KeysIgnore.list []) none false none =
      MainOutcome.fail (unpackMsg ("ab" : String).data.length) none :=
  ⟨(c9_amended "ab" (KeysIgnore.list [])).1, by decide,
   (c9_amended "ab" (KeysIgnore.list [])).2 "c" none false none (by decide)⟩

/-- C10: a single non-empty string supplied as `keys_ignore` is iterated
character by character: an entry is ignored iff some field value starts
with some single character of the string — as the concrete conjuncts
show, "a0" is ignored under the string "ab" although "a0" does not start
with "ab" as a whole. -/
theorem c10_string_iteration (s : String) (entry : Record) (h : s ≠ "") :
    (entryIgnored (KeysIgnore.str s) entry = true ↔
      ∃ v, v ∈ entry.map Prod.snd ∧ ∃ c, c ∈ s.data ∧
        str_startswith v (String.singleton c) = true) ∧
    entryIgnored (KeysIgnore.str "ab") [("k", "a0")] = true ∧
    str_startswith "a0" "ab" = false := by
  refine ⟨?_, by decide, by decide⟩
  have hs : (s == "") = false := by simp [h]
  simp [entryIgnored, KeysIgnore.truthy, KeysIgnore.iter, hs, List.any_eq_true,
    List.any_map, Function.comp]

/-- Witness for C10 at the string "ab" and a record with value "a0". -/
theorem c10_string_iteration_witness :
    ("ab" : String) ≠ "" ∧
    ((entryIgnored (KeysIgnore.str "ab") [("k", "a0")] = true ↔
      ∃ v, v ∈ ([("k", "a0")] : Record).map Prod.snd ∧ ∃ c, c ∈ ("ab" : String).data ∧
        str_startswith v (String.singleton c) = true) ∧
     entryIgnored (KeysIgnore.str "ab") [("k", "a0")] = true ∧
     str_startswith "a0" "ab" = false) :=
  ⟨by decide, c10_string_iteration "ab" [("k", "a0")] (by decide)⟩
